import Mathlib

/-!
Shallow embedding of the usage-analytics core of the stickersmash backend
(`usage_tracker.py`, `addiction_predictor.py`, `behavior_analyzer.py`,
`real_time_tracker.py`) and proofs about the claims of the specification.

Modelling conventions:
* Python numbers (durations in minutes or seconds, means, scores) are
  embedded as rationals, except where a square root forces reals
  (`calculate_pattern_consistency`).
* A timestamp is split into the fields the code reads from it: the calendar
  date (`day : Int`), the hour of day (`hour : Nat`) and an absolute time in
  minutes (`time : ℚ`) used for inter-session gaps.
* Python dicts that are iterated in insertion order are embedded as
  association lists to which new keys are appended at the end.
-/


/-! ## Definitions: the embedded program -/

/-- A raw usage-log entry, as consumed by `UsageDataProcessor`:
`day` is the calendar date (`timestamp.date()`), `hour` the hour of day
(`timestamp.hour`), `time` the absolute timestamp in minutes (used only for
gap computations), `appName` the app name and `duration` the session
duration in minutes. -/
structure UsageLog where
  day : Int
  hour : Nat
  time : ℚ
  appName : String
  duration : ℚ
deriving DecidableEq

/-- Input of `AddictionRiskPredictor._rule_based_prediction`: the fields it
reads from a daily-aggregate dict. -/
structure RiskInput where
  total_duration : ℚ
  night_usage : ℚ
  binge_sessions : ℚ
deriving DecidableEq

/-- Output shape of the risk scorer. -/
structure RiskResult where
  risk_level : Nat
  risk_probability : ℚ
  risk_label : String
deriving DecidableEq

/-- Models `AddictionRiskPredictor._get_risk_label`: fixed lookup table, any level
outside 0..3 maps to "Unknown". -/
def get_risk_label : Nat → String
  | 0 => "Low"
  | 1 => "Moderate"
  | 2 => "High"
  | 3 => "Critical"
  | _ => "Unknown"

/-- The accumulated `risk_score` of `_rule_based_prediction`: a tiered
daily-usage contribution (an `if/elif/elif` ladder, highest tier only) plus
independent night-usage and binge contributions. -/
def risk_score (d : RiskInput) : Nat :=
  (if d.total_duration > 360 then 3
   else if d.total_duration > 240 then 2
   else if d.total_duration > 120 then 1 else 0)
  + (if d.night_usage > 60 then 2 else 0)
  + (if d.binge_sessions > 3 then 2 else 0)

/-- Models `AddictionRiskPredictor._rule_based_prediction`. -/
def rule_based_prediction (d : RiskInput) : RiskResult :=
  let s := risk_score d
  { risk_level := min s 3
    risk_probability := min ((s : ℚ) / 7) 1
    risk_label := get_risk_label (min s 3) }

/-- Sum of the durations of the logs satisfying `p` (models Python
generator-expression sums such as
sum(s['duration'] for s in daily_sessions if cond)). -/
def sumDurIf (p : UsageLog → Prop) [DecidablePred p] (l : List UsageLog) : ℚ :=
  (l.map (fun s => if p s then s.duration else 0)).sum

/-- The social-app set of `aggregate_daily_data` (case-sensitive). -/
def socialApps : List String :=
  ["Instagram", "TikTok", "WhatsApp", "Facebook", "Twitter", "Snapchat"]

/-- The entertainment-app set of `aggregate_daily_data` (case-sensitive). -/
def entertainmentApps : List String :=
  ["YouTube", "Netflix", "Spotify", "Games", "Twitch"]

/-- The productivity-app set of `aggregate_daily_data` (case-sensitive). -/
def productivityApps : List String :=
  ["Chrome", "Email", "Calendar", "Notes", "Office"]

/-- A daily aggregate as produced by
`UsageDataProcessor.aggregate_daily_data`. -/
structure DailyRecord where
  date : Int
  total_duration : ℚ
  session_count : Nat
  morning_usage : ℚ
  afternoon_usage : ℚ
  evening_usage : ℚ
  night_usage : ℚ
  binge_sessions : Nat
  max_continuous_usage : ℚ
  social_media_time : ℚ
  entertainment_time : ℚ
  productivity_time : ℚ
  other_time : ℚ
deriving DecidableEq

/-- The loop of `UsageDataProcessor._calculate_max_continuous`: `mx` is
`max_continuous`, `cur` is `current_continuous`, `prev` the previous
session; a gap below 5 minutes accumulates, otherwise the running total is
recorded into the maximum and reset to the current session's duration;
at the end the maximum of the recorded maximum and the final running total
is returned. -/
def max_continuous_loop (mx cur : ℚ) (prev : UsageLog) : List UsageLog → ℚ
  | [] => max mx cur
  | s :: rest =>
      if s.time - prev.time < 5 then max_continuous_loop mx (cur + s.duration) s rest
      else max_continuous_loop (max mx cur) s.duration s rest

/-- Models `UsageDataProcessor._calculate_max_continuous` on a time-sorted session
list. -/
def calculate_max_continuous : List UsageLog → ℚ
  | [] => 0
  | s :: rest => max_continuous_loop 0 s.duration s rest

/-- Stable insertion into a time-sorted list (the session is placed before
the first strictly later session, so equal timestamps keep their original
relative order, as with Python's stable sort). -/
def insertByTime (s : UsageLog) : List UsageLog → List UsageLog
  | [] => [s]
  | t :: ts => if s.time ≤ t.time then s :: t :: ts else t :: insertByTime s ts

/-- Models sorted(daily_sessions, key=timestamp). -/
def sortByTime : List UsageLog → List UsageLog
  | [] => []
  | s :: ss => insertByTime s (sortByTime ss)

/-- Models `UsageDataProcessor.aggregate_daily_data`: filters the logs to the
target date and aggregates them; returns `none` when no session matches
(Python returns None). -/
def aggregate_daily_data (raw_logs : List UsageLog) (target_date : Int) :
    Option DailyRecord :=
  let daily := raw_logs.filter (fun s => decide (s.day = target_date))
  if daily.isEmpty then none
  else some
    { date := target_date
      total_duration := (daily.map (·.duration)).sum
      session_count := daily.length
      morning_usage := sumDurIf (fun s => 6 ≤ s.hour ∧ s.hour < 12) daily
      afternoon_usage := sumDurIf (fun s => 12 ≤ s.hour ∧ s.hour < 18) daily
      evening_usage := sumDurIf (fun s => 18 ≤ s.hour ∧ s.hour < 22) daily
      night_usage := sumDurIf (fun s => 22 ≤ s.hour ∨ s.hour < 6) daily
      binge_sessions := (daily.filter (fun s => decide (s.duration > 45))).length
      max_continuous_usage := calculate_max_continuous (sortByTime daily)
      social_media_time := sumDurIf (fun s => s.appName ∈ socialApps) daily
      entertainment_time := sumDurIf (fun s => s.appName ∈ entertainmentApps) daily
      productivity_time := sumDurIf (fun s => s.appName ∈ productivityApps) daily
      other_time := max 0 ((daily.map (·.duration)).sum
        - sumDurIf (fun s => s.appName ∈ socialApps) daily
        - sumDurIf (fun s => s.appName ∈ entertainmentApps) daily
        - sumDurIf (fun s => s.appName ∈ productivityApps) daily) }

/-- The all-zero aggregate substituted by `get_three_day_data` for a day
with no logs. -/
def zeroRecord (d : Int) : DailyRecord :=
  ⟨d, 0, 0, 0, 0, 0, 0, 0, 0, 0, 0, 0, 0⟩

/-- Models `UsageDataProcessor.get_three_day_data`, with today's date passed
explicitly: one aggregate per day for today-2, today-1, today (oldest
first), zero-filled when the day has no logs. -/
def get_three_day_data (raw_logs : List UsageLog) (today : Int) :
    List DailyRecord :=
  ([2, 1, 0] : List Int).map (fun i =>
    match aggregate_daily_data raw_logs (today - i) with
    | some d => d
    | none => zeroRecord (today - i))

/-- A per-date record of `UsageDataProcessor.process_logs_to_daily`
(`app_usage` is the per-app duration dict, kept in insertion order). -/
structure DayData where
  date : Int
  total_duration : ℚ
  session_count : Nat
  app_usage : List (String × ℚ)
  night_usage : ℚ
  morning_usage : ℚ
  afternoon_usage : ℚ
  evening_usage : ℚ
  binge_sessions : Nat
  social_media_time : ℚ
  entertainment_time : ℚ
  productivity_time : ℚ
  other_time : ℚ
  max_continuous_usage : ℚ
deriving DecidableEq

/-- The freshly initialised per-date record of `process_logs_to_daily`. -/
def initDayData (d : Int) : DayData :=
  ⟨d, 0, 0, [], 0, 0, 0, 0, 0, 0, 0, 0, 0, 0⟩

/-- Models day_data['app_usage'][app] = get(app, 0) + duration. -/
def updateAppUsage (app : String) (dur : ℚ) :
    List (String × ℚ) → List (String × ℚ)
  | [] => [(app, dur)]
  | (a, v) :: rest =>
      if a = app then (a, v + dur) :: rest
      else (a, v) :: updateAppUsage app dur rest

/-- Models Python str.lower() (character-wise lowercasing; the app names
involved are ASCII). -/
def strLower (s : String) : String := ⟨s.data.map Char.toLower⟩

/-- The lowercase social-app list of `process_logs_to_daily`. -/
def socialAppsLower : List String :=
  ["instagram", "facebook", "twitter", "snapchat", "tiktok"]

/-- The lowercase entertainment-app list of `process_logs_to_daily`. -/
def entertainmentAppsLower : List String :=
  ["youtube", "netflix", "spotify", "games"]

/-- The lowercase productivity-app list of `process_logs_to_daily`. -/
def productivityAppsLower : List String :=
  ["email", "calendar", "notes", "documents"]

/-- The body of the `process_logs_to_daily` loop for one log: bump the
totals, the app-usage dict, exactly one time-of-day bucket (if/elif chain:
night when 22 <= hour or hour <= 6, morning when 6 < hour <= 12, afternoon
when 12 < hour <= 18, else evening) and exactly one category bucket
(case-insensitive membership chain). -/
def updateDayData (log : UsageLog) (r : DayData) : DayData :=
  let r1 := { r with
    total_duration := r.total_duration + log.duration
    session_count := r.session_count + 1
    app_usage := updateAppUsage log.appName log.duration r.app_usage }
  let r2 :=
    if 22 ≤ log.hour ∨ log.hour ≤ 6 then
      { r1 with night_usage := r1.night_usage + log.duration }
    else if 6 < log.hour ∧ log.hour ≤ 12 then
      { r1 with morning_usage := r1.morning_usage + log.duration }
    else if 12 < log.hour ∧ log.hour ≤ 18 then
      { r1 with afternoon_usage := r1.afternoon_usage + log.duration }
    else
      { r1 with evening_usage := r1.evening_usage + log.duration }
  if strLower log.appName ∈ socialAppsLower then
    { r2 with social_media_time := r2.social_media_time + log.duration }
  else if strLower log.appName ∈ entertainmentAppsLower then
    { r2 with entertainment_time := r2.entertainment_time + log.duration }
  else if strLower log.appName ∈ productivityAppsLower then
    { r2 with productivity_time := r2.productivity_time + log.duration }
  else
    { r2 with other_time := r2.other_time + log.duration }

/-- Route one log to its date's record, creating the record at the end of
the list on first sight of the date (Python dict insertion order). -/
def insertLogDay (log : UsageLog) : List DayData → List DayData
  | [] => [updateDayData log (initDayData log.day)]
  | r :: rs =>
      if r.date = log.day then updateDayData log r :: rs
      else r :: insertLogDay log rs

/-- Models `UsageDataProcessor.process_logs_to_daily`: fold the logs into per-date
records; the result is the record list in date insertion order
(list(daily_data.values())). -/
def process_logs_to_daily (logs : List UsageLog) : List DayData :=
  logs.foldl (fun acc log => insertLogDay log acc) []

/-- Spec-side helper for C2: split the session list into the maximal runs
whose consecutive gaps are all below 5 minutes.  `cur` is the current run
accumulated in reverse. -/
def contRunsAux (cur : List UsageLog) (prev : UsageLog) :
    List UsageLog → List (List UsageLog)
  | [] => [cur.reverse]
  | s :: rest =>
      if s.time - prev.time < 5 then contRunsAux (s :: cur) s rest
      else cur.reverse :: contRunsAux [s] s rest

/-- Spec-side helper for C2: the maximal continuous runs of a session
list. -/
def contRuns : List UsageLog → List (List UsageLog)
  | [] => []
  | s :: rest => contRunsAux [s] s rest

/-- Total duration of one run. -/
def runSum (run : List UsageLog) : ℚ := (run.map (·.duration)).sum

/-- Spec-side value for C2, following the claim's words: the maximum
running total over the maximal continuous runs (0 when there is none). -/
def maxRunSum (l : List UsageLog) : ℚ :=
  ((contRuns l).map runSum).foldl max 0

/-- One behavior-data entry as read by `_calculate_pattern_consistency`:
the calendar date of its timestamp and its duration. -/
structure BehaviorEntry where
  day : Int
  duration : ℚ
deriving DecidableEq

/-- Models daily_totals[day_key] += duration on a defaultdict (new days
appended in first-occurrence order). -/
def addDailyTotal (d : Int) (v : ℚ) : List (Int × ℚ) → List (Int × ℚ)
  | [] => [(d, v)]
  | (a, x) :: rest =>
      if a = d then (a, x + v) :: rest else (a, x) :: addDailyTotal d v rest

/-- The per-day duration totals of `_calculate_pattern_consistency`,
grouped by calendar date. -/
def dailyTotals (data : List BehaviorEntry) : List (Int × ℚ) :=
  data.foldl (fun acc e => addDailyTotal e.day e.duration acc) []

/-- Models np.mean on the list of daily totals, as a real number. -/
noncomputable def listMeanR (l : List ℚ) : ℝ :=
  (l.map (fun q => (q : ℝ))).sum / l.length

/-- Models np.std (population standard deviation, the numpy default) on
the list of daily totals. -/
noncomputable def listStdR (l : List ℚ) : ℝ :=
  Real.sqrt ((l.map (fun q => ((q : ℝ) - listMeanR l) ^ 2)).sum / l.length)

/-- Models `BehaviorAnalyzer._calculate_pattern_consistency`: groups the entries
by day; with fewer than 7 distinct days returns the 0.5 default; with a
zero mean returns 0; otherwise returns max(0, 1 - std/mean). -/
noncomputable def calculate_pattern_consistency (data : List BehaviorEntry) : ℝ :=
  let values := (dailyTotals data).map (·.2)
  if values.length < 7 then 0.5
  else if listMeanR values = 0 then 0
  else max 0 (1 - listStdR values / listMeanR values)

/-- One row of the per-day feature matrix, restricted to the three columns
`_detect_behavioral_anomalies` reads: column 0 (total daily usage), column
8 (night session count) and column 11 (binge score). -/
structure FeatureRow where
  total_duration : ℚ
  night_sessions : ℚ
  binge_score : ℚ
deriving DecidableEq

/-- Models np.mean: sum divided by length (every list this is applied to
in the anomaly detector is non-empty). -/
def qmean (l : List ℚ) : ℚ := l.sum / l.length

/-- Python list[-n:]: the last n elements (the whole list when it is
shorter). -/
def lastN (n : Nat) (l : List α) : List α := l.drop (l.length - n)

/-- Models `BehaviorAnalyzer._detect_behavioral_anomalies`: needs at least 5
day-rows, works on the last 14, and compares the mean of the last 3 rows
against the mean of the earlier rows of the window for usage (flag at
1.5x, severity high at 2x), night sessions (flag at 2x) and binge score
(flag above 0.3 regardless of history).  The code guards the usage check
with len > 3, which is always true here. -/
def detect_behavioral_anomalies (features : List FeatureRow) :
    List (String × String) :=
  if features.length < 5 then []
  else
    let recent := lastN 14 features
    let usage := recent.map (·.total_duration)
    let spike :=
      if 3 < usage.length then
        if qmean (lastN 3 usage) > qmean (usage.take (usage.length - 3)) * 1.5 then
          [("usage_spike",
            if qmean (lastN 3 usage) > qmean (usage.take (usage.length - 3)) * 2
            then "high" else "medium")]
        else []
      else []
    let night := recent.map (·.night_sessions)
    let nightA :=
      if qmean (lastN 3 night) > qmean (night.take (night.length - 3)) * 2 then
        [("night_usage_increase", "medium")]
      else []
    let binge := recent.map (·.binge_score)
    let bingeA :=
      if qmean (lastN 3 binge) > 3 / 10 then [("binge_behavior", "high")] else []
    spike ++ nightA ++ bingeA

/-- The claim's description of the anomaly detector: identical to the code
except that the redundant len > 3 guard on the usage check is absent. -/
def anomaliesClaimSpec (features : List FeatureRow) :
    List (String × String) :=
  if features.length < 5 then []
  else
    let recent := lastN 14 features
    let usage := recent.map (·.total_duration)
    let spike :=
      if qmean (lastN 3 usage) > qmean (usage.take (usage.length - 3)) * 1.5 then
        [("usage_spike",
          if qmean (lastN 3 usage) > qmean (usage.take (usage.length - 3)) * 2
          then "high" else "medium")]
      else []
    let night := recent.map (·.night_sessions)
    let nightA :=
      if qmean (lastN 3 night) > qmean (night.take (night.length - 3)) * 2 then
        [("night_usage_increase", "medium")]
      else []
    let binge := recent.map (·.binge_score)
    let bingeA :=
      if qmean (lastN 3 binge) > 3 / 10 then [("binge_behavior", "high")] else []
    spike ++ nightA ++ bingeA

/-- Which of the four independent checks of `generate_insights` produced
an insight (abstracts the formatted message string of the source). -/
inductive InsightTag
  | trendUp
  | trendDown
  | nightHigh
  | bingeAlert
  | socialHigh
deriving DecidableEq

/-- An insight: its type and severity strings exactly as in the source,
plus the tag identifying the check that fired. -/
structure Insight where
  itype : String
  severity : String
  tag : InsightTag
deriving DecidableEq

/-- The least-squares slope of ys against x = 0, 1, ..., n-1: the leading
coefficient of np.polyfit(range(n), ys, 1), in closed form. -/
def lsSlope (ys : List ℚ) : ℚ :=
  let n : ℚ := ys.length
  let xs : List ℚ := (List.range ys.length).map (fun i => (i : ℚ))
  (n * ((xs.zip ys).map (fun p => p.1 * p.2)).sum - xs.sum * ys.sum)
    / (n * (xs.map (fun x => x * x)).sum - xs.sum * xs.sum)

/-- Models `AddictionRiskPredictor.generate_insights`: trend check (needs at
least 2 days; slope above +30 warns with severity high, below -30 is a
positive insight with severity low), then the night-usage mean, binge-sum
and social-media mean threshold checks. -/
def generate_insights (l : List DailyRecord) : List Insight :=
  (if 2 ≤ l.length then
    (if lsSlope (l.map (·.total_duration)) > 30 then
      [⟨"warning", "high", .trendUp⟩]
    else if lsSlope (l.map (·.total_duration)) < -30 then
      [⟨"positive", "low", .trendDown⟩]
    else [])
  else [])
  ++ (if qmean (l.map (·.night_usage)) > 60 then
        [⟨"warning", "high", .nightHigh⟩] else [])
  ++ (if ((l.map (·.binge_sessions)).sum > 5) then
        [⟨"alert", "critical", .bingeAlert⟩] else [])
  ++ (if qmean (l.map (·.social_media_time)) > 180 then
        [⟨"warning", "moderate", .socialHigh⟩] else [])

/-- One buffer entry as read by `PatternDetector`: the hour of its
timestamp, the app name, and the running session duration in seconds. -/
structure BufferEntry where
  hour : Nat
  appName : String
  duration : ℚ
deriving DecidableEq

/-- A detected real-time pattern: its type string and its severity (only
the binge pattern carries one). -/
structure RTPattern where
  ptype : String
  severity : Option String
deriving DecidableEq

/-- Models `PatternDetector._detect_binge_pattern`: sums the durations of the
last 20 entries; above 3600 seconds (60 minutes) flags a binge, severity
high above 7200 seconds (120 minutes), else medium.  The len < 5 guard is
dead whenever the buffer holds at least 10 entries. -/
def detect_binge_pattern (usage_data : List BufferEntry) : Option RTPattern :=
  let recent := lastN 20 usage_data
  if recent.length < 5 then none
  else
    let total : ℚ := (recent.map (·.duration)).sum
    if total > 3600 then
      some ⟨"binge_usage", some (if total > 7200 then "high" else "medium")⟩
    else none

/-- Models hour_usage[hour] += duration on a defaultdict over the whole
buffer (insertion order of first occurrence). -/
def addHourUsage (h : Nat) (v : ℚ) : List (Nat × ℚ) → List (Nat × ℚ)
  | [] => [(h, v)]
  | (a, x) :: rest =>
      if a = h then (a, x + v) :: rest else (a, x) :: addHourUsage h v rest

/-- The per-hour duration sums of `_detect_time_patterns`. -/
def hourUsage (usage_data : List BufferEntry) : List (Nat × ℚ) :=
  usage_data.foldl (fun acc e => addHourUsage e.hour e.duration acc) []

/-- Models Python max(hour_usage, key=hour_usage.get): the first
key-value pair attaining the maximal value, in insertion order (a strictly
greater value replaces the current best). -/
def firstMax : List (Nat × ℚ) → Option (Nat × ℚ)
  | [] => none
  | p :: rest => some (rest.foldl (fun best q => if q.2 > best.2 then q else best) p)

/-- Models `PatternDetector._detect_time_patterns`: flags a peak-usage-time
pattern when the busiest hour's summed duration exceeds 60 minutes. -/
def detect_time_patterns (usage_data : List BufferEntry) : Option RTPattern :=
  match firstMax (hourUsage usage_data) with
  | none => none
  | some peak =>
      if peak.2 / 60 > 60 then some ⟨"peak_usage_time", none⟩ else none

/-- Models `PatternDetector._detect_app_switching`: flags switching behavior when
the last 10 entries contain at least 5 distinct app names.  The len < 5
guard is dead whenever the buffer holds at least 10 entries. -/
def detect_app_switching (usage_data : List BufferEntry) : Option RTPattern :=
  let recent := lastN 10 usage_data
  if recent.length < 5 then none
  else if 5 ≤ (recent.map (·.appName)).dedup.length then
    some ⟨"app_switching", none⟩
  else none

/-- The per-pattern confidence bonus of `_calculate_pattern_confidence`:
0.2 for severity high, 0.1 for severity medium, nothing otherwise. -/
def severityBonus (p : RTPattern) : ℚ :=
  if p.severity = some "high" then 2 / 10
  else if p.severity = some "medium" then 1 / 10
  else 0

/-- Models `PatternDetector._calculate_pattern_confidence`: 0 for no patterns;
otherwise min(count * 0.3, 1) plus the severity bonuses, clamped at 1. -/
def calculate_pattern_confidence (patterns : List RTPattern) : ℚ :=
  if patterns.isEmpty then 0
  else min (min ((patterns.length : ℚ) * (3 / 10)) 1
    + (patterns.map severityBonus).sum) 1

/-- Models `PatternDetector.detect_patterns`: with fewer than 10 buffer entries
returns no patterns and confidence 0; otherwise runs the three detectors
in order and computes the confidence of the collected patterns. -/
def detect_patterns (usage_data : List BufferEntry) : List RTPattern × ℚ :=
  if usage_data.length < 10 then ([], 0)
  else
    let patterns := (detect_binge_pattern usage_data).toList
      ++ (detect_time_patterns usage_data).toList
      ++ (detect_app_switching usage_data).toList
    (patterns, calculate_pattern_confidence patterns)

/-! ## Theorems -/

/-- C1: the rule-based risk scorer computes score as the highest matching
daily-usage tier (+3 for >360, +2 for >240, +1 for >120) plus 2 if night
usage exceeds 60 plus 2 if binge sessions exceed 3; it returns
risk_level = min(score, 3), risk_probability = min(score/7, 1), and the
label from the fixed table {0:Low, 1:Moderate, 2:High, 3:Critical} with any
other level mapped to "Unknown".  A day with total 400 or 500 minutes and
zero night/binge inputs yields level 3 "Critical"; a day with total 50
yields level 0 "Low". -/
theorem c1_rule_based_prediction :
    (∀ d : RiskInput,
      (rule_based_prediction d).risk_level =
        min ((if d.total_duration > 360 then 3
              else if d.total_duration > 240 then 2
              else if d.total_duration > 120 then 1 else 0)
             + (if d.night_usage > 60 then 2 else 0)
             + (if d.binge_sessions > 3 then 2 else 0)) 3
      ∧ (rule_based_prediction d).risk_probability = min ((risk_score d : ℚ) / 7) 1
      ∧ (rule_based_prediction d).risk_label =
          get_risk_label (rule_based_prediction d).risk_level)
    ∧ (get_risk_label 0 = "Low" ∧ get_risk_label 1 = "Moderate"
       ∧ get_risk_label 2 = "High" ∧ get_risk_label 3 = "Critical")
    ∧ (∀ n : Nat, 4 ≤ n → get_risk_label n = "Unknown")
    ∧ rule_based_prediction ⟨400, 0, 0⟩ = ⟨3, 3 / 7, "Critical"⟩
    ∧ rule_based_prediction ⟨500, 0, 0⟩ = ⟨3, 3 / 7, "Critical"⟩
    ∧ rule_based_prediction ⟨50, 0, 0⟩ = ⟨0, 0, "Low"⟩ := by
  refine ⟨fun d => ⟨rfl, rfl, rfl⟩, ⟨rfl, rfl, rfl, rfl⟩, ?_, ?_, ?_, ?_⟩
  · intro n hn
    obtain ⟨m, rfl⟩ : ∃ m, n = m + 4 := ⟨n - 4, by omega⟩
    rfl
  · norm_num [rule_based_prediction, risk_score, get_risk_label, RiskResult.mk.injEq, min_def]
  · norm_num [rule_based_prediction, risk_score, get_risk_label, RiskResult.mk.injEq, min_def]
  · norm_num [rule_based_prediction, risk_score, get_risk_label, RiskResult.mk.injEq, min_def]

/-- Closed instance of `c1_rule_based_prediction`: the "Unknown" clause at
level 5. -/
theorem c1_rule_based_prediction_witness : get_risk_label 5 = "Unknown" :=
  c1_rule_based_prediction.2.2.1 5 (by norm_num)

theorem runSum_reverse (l : List UsageLog) : runSum l.reverse = runSum l := by
  simp [runSum, List.sum_reverse]

theorem max_continuous_loop_eq (rest : List UsageLog) :
    ∀ (mx : ℚ) (cl : List UsageLog) (prev : UsageLog),
      max_continuous_loop mx (runSum cl) prev rest =
        ((contRunsAux cl prev rest).map runSum).foldl max mx := by
  induction rest with
  | nil =>
      intro mx cl prev
      simp [max_continuous_loop, contRunsAux, runSum_reverse]
  | cons s rest ih =>
      intro mx cl prev
      by_cases h : s.time - prev.time < 5
      · have hsum : runSum cl + s.duration = runSum (s :: cl) := by
          simp [runSum]; ring
        simp only [max_continuous_loop, contRunsAux, if_pos h, hsum]
        exact ih mx (s :: cl) s
      · have hs : s.duration = runSum [s] := by simp [runSum]
        simp only [max_continuous_loop, contRunsAux, if_neg h]
        rw [hs, ih (max mx (runSum cl)) [s] s]
        simp [runSum_reverse]

/-- C2: `_calculate_max_continuous` walks the sessions in order,
accumulating the running duration total while consecutive gaps are below 5
minutes and resetting it to the current session's own duration otherwise,
and returns the maximum running total seen — equivalently the maximum over
the maximal continuous runs of their summed durations; an empty list gives
0, a one-session list gives that session's own duration, and the spec's
scenario (timestamps 3 minutes apart with durations 10, 10, 10, then a
10-minute gap and a duration-5 session) gives 30, not 35. -/
theorem c2_calculate_max_continuous :
    (∀ l : List UsageLog, calculate_max_continuous l = maxRunSum l)
    ∧ calculate_max_continuous [] = 0
    ∧ (∀ s : UsageLog, 0 ≤ s.duration → calculate_max_continuous [s] = s.duration)
    ∧ calculate_max_continuous
        [⟨0, 0, 0, "A", 10⟩, ⟨0, 0, 3, "A", 10⟩, ⟨0, 0, 6, "A", 10⟩,
         ⟨0, 0, 16, "A", 5⟩] = 30
    ∧ (30 : ℚ) ≠ 35 := by
  refine ⟨?_, rfl, ?_, ?_, by norm_num⟩
  · intro l
    cases l with
    | nil => rfl
    | cons s rest =>
        have hs : s.duration = runSum [s] := by simp [runSum]
        show max_continuous_loop 0 s.duration s rest = _
        rw [hs, max_continuous_loop_eq rest 0 [s] s]
        simp [maxRunSum, contRuns]
  · intro s h
    simp [calculate_max_continuous, max_continuous_loop, max_eq_right h]
  · norm_num [calculate_max_continuous, max_continuous_loop, max_def]

/-- Closed instance of `c2_calculate_max_continuous`: the one-session
clause at a concrete session of duration 7. -/
theorem c2_calculate_max_continuous_witness :
    calculate_max_continuous [⟨0, 9, 100, "Chrome", 7⟩] = 7 :=
  c2_calculate_max_continuous.2.2.1 ⟨0, 9, 100, "Chrome", 7⟩ (by norm_num)

theorem bucket_sum_eq_total (l : List UsageLog) :
    sumDurIf (fun s => 6 ≤ s.hour ∧ s.hour < 12) l
      + sumDurIf (fun s => 12 ≤ s.hour ∧ s.hour < 18) l
      + sumDurIf (fun s => 18 ≤ s.hour ∧ s.hour < 22) l
      + sumDurIf (fun s => 22 ≤ s.hour ∨ s.hour < 6) l
      = (l.map (·.duration)).sum := by
  induction l with
  | nil => simp [sumDurIf]
  | cons s rest ih =>
      simp only [sumDurIf, List.map_cons, List.sum_cons] at *
      have hone : (if 6 ≤ s.hour ∧ s.hour < 12 then s.duration else 0)
          + (if 12 ≤ s.hour ∧ s.hour < 18 then s.duration else 0)
          + (if 18 ≤ s.hour ∧ s.hour < 22 then s.duration else 0)
          + (if 22 ≤ s.hour ∨ s.hour < 6 then s.duration else 0) = s.duration := by
        split_ifs <;> first | (exfalso; omega) | ring
      linarith

theorem updateDayData_partition (log : UsageLog) (r : DayData)
    (h : r.morning_usage + r.afternoon_usage + r.evening_usage + r.night_usage
      = r.total_duration) :
    (updateDayData log r).morning_usage + (updateDayData log r).afternoon_usage
      + (updateDayData log r).evening_usage + (updateDayData log r).night_usage
      = (updateDayData log r).total_duration := by
  simp only [updateDayData]
  split_ifs <;> simp <;> linarith

theorem insertLogDay_partition (log : UsageLog) (acc : List DayData)
    (h : ∀ r ∈ acc,
      r.morning_usage + r.afternoon_usage + r.evening_usage + r.night_usage
        = r.total_duration) :
    ∀ r ∈ insertLogDay log acc,
      r.morning_usage + r.afternoon_usage + r.evening_usage + r.night_usage
        = r.total_duration := by
  induction acc with
  | nil =>
      intro r hr
      simp only [insertLogDay, List.mem_singleton] at hr
      subst hr
      exact updateDayData_partition log _ (by simp [initDayData])
  | cons a rest ih =>
      intro r hr
      simp only [insertLogDay] at hr
      by_cases hd : a.date = log.day
      · rw [if_pos hd] at hr
        rcases List.mem_cons.mp hr with h1 | h1
        · subst h1; exact updateDayData_partition log a (h a (by simp))
        · exact h r (by simp [h1])
      · rw [if_neg hd] at hr
        rcases List.mem_cons.mp hr with h1 | h1
        · subst h1; exact h r (by simp)
        · exact ih (fun x hx => h x (by simp [hx])) r h1

theorem process_logs_partition_aux (logs : List UsageLog) :
    ∀ acc : List DayData,
      (∀ r ∈ acc,
        r.morning_usage + r.afternoon_usage + r.evening_usage + r.night_usage
          = r.total_duration) →
      ∀ r ∈ logs.foldl (fun a log => insertLogDay log a) acc,
        r.morning_usage + r.afternoon_usage + r.evening_usage + r.night_usage
          = r.total_duration := by
  induction logs with
  | nil => intro acc h; simpa using h
  | cons log rest ih =>
      intro acc h
      exact ih _ (insertLogDay_partition log acc h)

/-- C3: every daily aggregate produced by either aggregator variant
(`aggregate_daily_data` for a target date, and each per-date record built
by `process_logs_to_daily`) satisfies
morning_usage + afternoon_usage + evening_usage + night_usage ==
total_duration exactly. -/
theorem c3_partition_invariant :
    (∀ (logs : List UsageLog) (t : Int) (r : DailyRecord),
        aggregate_daily_data logs t = some r →
        r.morning_usage + r.afternoon_usage + r.evening_usage + r.night_usage
          = r.total_duration)
    ∧ (∀ logs : List UsageLog, ∀ r ∈ process_logs_to_daily logs,
        r.morning_usage + r.afternoon_usage + r.evening_usage + r.night_usage
          = r.total_duration) := by
  constructor
  · intro logs t r h
    unfold aggregate_daily_data at h
    by_cases he : (logs.filter (fun s => decide (s.day = t))).isEmpty
    · simp [he] at h
    · simp only [he, if_false, Bool.false_eq_true, Option.some.injEq] at h
      subst h
      exact bucket_sum_eq_total _
  · intro logs r hr
    exact process_logs_partition_aux logs [] (by simp) r hr

/-- Closed instance of `c3_partition_invariant` on a concrete two-session
log list, for both aggregator variants. -/
theorem c3_partition_invariant_witness :
    ((⟨0, 50, 2, 30, 0, 0, 20, 0, 30, 30, 20, 0, 0⟩ : DailyRecord).morning_usage
      + (⟨0, 50, 2, 30, 0, 0, 20, 0, 30, 30, 20, 0, 0⟩ : DailyRecord).afternoon_usage
      + (⟨0, 50, 2, 30, 0, 0, 20, 0, 30, 30, 20, 0, 0⟩ : DailyRecord).evening_usage
      + (⟨0, 50, 2, 30, 0, 0, 20, 0, 30, 30, 20, 0, 0⟩ : DailyRecord).night_usage
      = (⟨0, 50, 2, 30, 0, 0, 20, 0, 30, 30, 20, 0, 0⟩ : DailyRecord).total_duration)
    ∧ ((⟨0, 50, 2, [("Instagram", 30), ("YouTube", 20)], 20, 30, 0, 0, 0, 30, 20, 0, 0, 0⟩ : DayData).morning_usage
      + (⟨0, 50, 2, [("Instagram", 30), ("YouTube", 20)], 20, 30, 0, 0, 0, 30, 20, 0, 0, 0⟩ : DayData).afternoon_usage
      + (⟨0, 50, 2, [("Instagram", 30), ("YouTube", 20)], 20, 30, 0, 0, 0, 30, 20, 0, 0, 0⟩ : DayData).evening_usage
      + (⟨0, 50, 2, [("Instagram", 30), ("YouTube", 20)], 20, 30, 0, 0, 0, 30, 20, 0, 0, 0⟩ : DayData).night_usage
      = (⟨0, 50, 2, [("Instagram", 30), ("YouTube", 20)], 20, 30, 0, 0, 0, 30, 20, 0, 0, 0⟩ : DayData).total_duration) :=
  ⟨c3_partition_invariant.1 [⟨0, 7, 0, "Instagram", 30⟩, ⟨0, 23, 10, "YouTube", 20⟩] 0 _
    (by
      simp only [aggregate_daily_data, sumDurIf, calculate_max_continuous,
        max_continuous_loop, sortByTime, insertByTime, socialApps,
        entertainmentApps, productivityApps, List.filter, List.map,
        List.sum_cons, List.sum_nil, List.mem_cons, List.mem_singleton,
        List.not_mem_nil]
      simp [DailyRecord.mk.injEq, max_def, max_continuous_loop]
      norm_num),
   c3_partition_invariant.2 [⟨0, 7, 0, "Instagram", 30⟩, ⟨0, 23, 10, "YouTube", 20⟩] _
    (by
      have h1 : strLower "Instagram" = "instagram" := by decide
      have h2 : strLower "YouTube" = "youtube" := by decide
      simp only [process_logs_to_daily, List.foldl, insertLogDay, updateDayData,
        updateAppUsage, initDayData, h1, h2, socialAppsLower,
        entertainmentAppsLower, productivityAppsLower]
      norm_num [DayData.mk.injEq]
      simp)⟩

theorem social_ent_disjoint :
    ∀ a : String, a ∈ socialApps → a ∈ entertainmentApps → False := by
  intro a ha hb
  simp only [socialApps, List.mem_cons, List.not_mem_nil, or_false] at ha
  rcases ha with rfl | rfl | rfl | rfl | rfl | rfl <;>
    simp [entertainmentApps] at hb

theorem social_prod_disjoint :
    ∀ a : String, a ∈ socialApps → a ∈ productivityApps → False := by
  intro a ha hb
  simp only [socialApps, List.mem_cons, List.not_mem_nil, or_false] at ha
  rcases ha with rfl | rfl | rfl | rfl | rfl | rfl <;>
    simp [productivityApps] at hb

theorem ent_prod_disjoint :
    ∀ a : String, a ∈ entertainmentApps → a ∈ productivityApps → False := by
  intro a ha hb
  simp only [entertainmentApps, List.mem_cons, List.not_mem_nil, or_false] at ha
  rcases ha with rfl | rfl | rfl | rfl | rfl <;>
    simp [productivityApps] at hb

theorem cat_sum_le_total (l : List UsageLog) (h : ∀ s ∈ l, 0 ≤ s.duration) :
    sumDurIf (fun s => s.appName ∈ socialApps) l
      + sumDurIf (fun s => s.appName ∈ entertainmentApps) l
      + sumDurIf (fun s => s.appName ∈ productivityApps) l
      ≤ (l.map (·.duration)).sum := by
  induction l with
  | nil => simp [sumDurIf]
  | cons s rest ih =>
      have h0 : 0 ≤ s.duration := h s (by simp)
      have hrest : ∀ x ∈ rest, 0 ≤ x.duration := fun x hx => h x (by simp [hx])
      simp only [sumDurIf, List.map_cons, List.sum_cons] at *
      have hone : (if s.appName ∈ socialApps then s.duration else 0)
          + (if s.appName ∈ entertainmentApps then s.duration else 0)
          + (if s.appName ∈ productivityApps then s.duration else 0)
          ≤ s.duration := by
        rcases Decidable.em (s.appName ∈ socialApps) with hs | hs <;>
          rcases Decidable.em (s.appName ∈ entertainmentApps) with hent | hent <;>
            rcases Decidable.em (s.appName ∈ productivityApps) with hp | hp <;>
              simp only [hs, hent, hp, if_pos, if_neg, if_true, if_false,
                not_false_iff] <;>
                first
                  | exact (social_ent_disjoint _ hs hent).elim
                  | exact (social_prod_disjoint _ hs hp).elim
                  | exact (ent_prod_disjoint _ hent hp).elim
                  | linarith
      linarith [ih hrest]

/-- C10: in every aggregate of non-negative-duration events produced by
`aggregate_daily_data`, the four category splits sum exactly to the total
duration, the pre-floor remainder total − social − entertainment −
productivity is never negative (the max(0, ·) floor on other_time never
binds), and the three hard-coded category app-name sets are pairwise
disjoint. -/
theorem c10_category_partition :
    ∀ (logs : List UsageLog) (t : Int) (r : DailyRecord),
      (∀ s ∈ logs, 0 ≤ s.duration) →
      aggregate_daily_data logs t = some r →
      r.social_media_time + r.entertainment_time + r.productivity_time
          + r.other_time = r.total_duration
      ∧ r.social_media_time + r.entertainment_time + r.productivity_time
          ≤ r.total_duration
      ∧ (∀ a : String, a ∈ socialApps → a ∉ entertainmentApps)
      ∧ (∀ a : String, a ∈ socialApps → a ∉ productivityApps)
      ∧ (∀ a : String, a ∈ entertainmentApps → a ∉ productivityApps) := by
  intro logs t r hpos h
  unfold aggregate_daily_data at h
  by_cases he : (logs.filter (fun s => decide (s.day = t))).isEmpty
  · simp [he] at h
  · simp only [he, if_false, Bool.false_eq_true, Option.some.injEq] at h
    subst h
    have hdpos : ∀ s ∈ logs.filter (fun s => decide (s.day = t)), 0 ≤ s.duration :=
      fun s hs => hpos s (List.mem_of_mem_filter hs)
    have hle := cat_sum_le_total _ hdpos
    refine ⟨?_, by simpa using hle,
      fun a ha hb => social_ent_disjoint a ha hb,
      fun a ha hb => social_prod_disjoint a ha hb,
      fun a ha hb => ent_prod_disjoint a ha hb⟩
    simp only
    rw [max_eq_right (by linarith)]
    ring

/-- Closed instance of `c10_category_partition` on a concrete three-session
log list covering a social app, a productivity app and an uncategorised
app. -/
theorem c10_category_partition_witness :
    ((⟨0, 50, 3, 40, 10, 0, 0, 0, 25, 25, 0, 15, 10⟩ : DailyRecord).social_media_time
      + (⟨0, 50, 3, 40, 10, 0, 0, 0, 25, 25, 0, 15, 10⟩ : DailyRecord).entertainment_time
      + (⟨0, 50, 3, 40, 10, 0, 0, 0, 25, 25, 0, 15, 10⟩ : DailyRecord).productivity_time
      + (⟨0, 50, 3, 40, 10, 0, 0, 0, 25, 25, 0, 15, 10⟩ : DailyRecord).other_time
      = (⟨0, 50, 3, 40, 10, 0, 0, 0, 25, 25, 0, 15, 10⟩ : DailyRecord).total_duration)
    ∧ (⟨0, 50, 3, 40, 10, 0, 0, 0, 25, 25, 0, 15, 10⟩ : DailyRecord).social_media_time
      + (⟨0, 50, 3, 40, 10, 0, 0, 0, 25, 25, 0, 15, 10⟩ : DailyRecord).entertainment_time
      + (⟨0, 50, 3, 40, 10, 0, 0, 0, 25, 25, 0, 15, 10⟩ : DailyRecord).productivity_time
      ≤ (⟨0, 50, 3, 40, 10, 0, 0, 0, 25, 25, 0, 15, 10⟩ : DailyRecord).total_duration := by
  have h := c10_category_partition
    [⟨0, 10, 0, "Instagram", 25⟩, ⟨0, 11, 30, "Chrome", 15⟩, ⟨0, 12, 60, "Foo", 10⟩] 0
    ⟨0, 50, 3, 40, 10, 0, 0, 0, 25, 25, 0, 15, 10⟩
    (by
      intro s hs
      simp only [List.mem_cons, List.not_mem_nil, or_false] at hs
      rcases hs with rfl | rfl | rfl <;> norm_num)
    (by
      simp only [aggregate_daily_data, sumDurIf, calculate_max_continuous,
        max_continuous_loop, sortByTime, insertByTime, socialApps,
        entertainmentApps, productivityApps, List.filter, List.map,
        List.sum_cons, List.sum_nil, List.mem_cons, List.mem_singleton,
        List.not_mem_nil]
      simp [DailyRecord.mk.injEq, max_def, max_continuous_loop]
      norm_num)
  exact ⟨h.1, h.2.1⟩

theorem aggregate_none_of_no_match (logs : List UsageLog) (d : Int)
    (h : ∀ log ∈ logs, log.day ≠ d) : aggregate_daily_data logs d = none := by
  have he : logs.filter (fun s => decide (s.day = d)) = [] := by
    rw [List.filter_eq_nil_iff]
    intro a ha
    simp [h a ha]
  unfold aggregate_daily_data
  simp [he]

theorem aggregate_date (logs : List UsageLog) (t : Int) (r : DailyRecord)
    (h : aggregate_daily_data logs t = some r) : r.date = t := by
  unfold aggregate_daily_data at h
  by_cases he : (logs.filter (fun s => decide (s.day = t))).isEmpty
  · simp [he] at h
  · simp only [he, if_false, Bool.false_eq_true, Option.some.injEq] at h
    subst h
    rfl

/-- C9: `get_three_day_data` always returns exactly 3 daily records,
ordered oldest first with dates today-2, today-1, today; a day with no
matching events is represented by the documented all-zero aggregate rather
than omitted, and the empty log list yields exactly the three zero-filled
records. -/
theorem c9_three_day_zero_fill :
    ∀ (logs : List UsageLog) (today : Int),
      (get_three_day_data logs today).length = 3
      ∧ (get_three_day_data logs today).map (·.date)
          = [today - 2, today - 1, today]
      ∧ (∀ i ∈ ([2, 1, 0] : List Int), (∀ log ∈ logs, log.day ≠ today - i) →
          zeroRecord (today - i) ∈ get_three_day_data logs today)
      ∧ get_three_day_data [] today
          = [zeroRecord (today - 2), zeroRecord (today - 1), zeroRecord today] := by
  intro logs today
  refine ⟨by simp [get_three_day_data], ?_, ?_, ?_⟩
  · simp only [get_three_day_data, List.map_cons, List.map_nil]
    have h2 : ∀ i : Int,
        (match aggregate_daily_data logs (today - i) with
          | some d => d
          | none => zeroRecord (today - i)).date = today - i := by
      intro i
      rcases hagg : aggregate_daily_data logs (today - i) with _ | r
      · simp [zeroRecord]
      · simpa using aggregate_date logs (today - i) r hagg
    simp only [h2]
    norm_num
  · intro i hi h
    have hnone := aggregate_none_of_no_match logs (today - i) h
    simp only [get_three_day_data]
    exact List.mem_map.mpr ⟨i, hi, by simp [hnone]⟩
  · have hnone : ∀ d : Int, aggregate_daily_data [] d = none := by
      intro d
      simp [aggregate_daily_data, List.filter]
    simp [get_three_day_data, hnone]

/-- Closed instance of `c9_three_day_zero_fill`: a log list whose single
entry lies outside the window still yields the zero record for day -2. -/
theorem c9_three_day_zero_fill_witness :
    zeroRecord (0 - 2) ∈ get_three_day_data [⟨5, 0, 0, "X", 1⟩] 0 :=
  (c9_three_day_zero_fill [⟨5, 0, 0, "X", 1⟩] 0).2.2.1 2 (by decide)
    (by decide)

/-- C4 counterexample: the claim says the coefficient of variation is
taken to be 0 when the mean is 0, so that an all-zero week scores
max(0, 1 − 0) = 1; but on a 7-day all-zero week the code's mean-zero guard
returns 0 directly, not 1. -/
theorem c4_counterexample :
    calculate_pattern_consistency
      [⟨0, 0⟩, ⟨1, 0⟩, ⟨2, 0⟩, ⟨3, 0⟩, ⟨4, 0⟩, ⟨5, 0⟩, ⟨6, 0⟩] = 0
    ∧ (0 : ℝ) ≠ 1 := by
  constructor
  · have hdt : dailyTotals
        [⟨0, 0⟩, ⟨1, 0⟩, ⟨2, 0⟩, ⟨3, 0⟩, ⟨4, 0⟩, ⟨5, 0⟩, ⟨6, 0⟩]
        = [(0, 0), (1, 0), (2, 0), (3, 0), (4, 0), (5, 0), (6, 0)] := by
      simp [dailyTotals, addDailyTotal]
    simp only [calculate_pattern_consistency, hdt, List.map_cons, List.map_nil]
    norm_num [listMeanR]
  · norm_num

/-- C4 (amended): `_calculate_pattern_consistency` returns
max(0, 1 − stddev/mean) of the per-day duration totals when the entries
span at least 7 distinct calendar days and the mean is nonzero; when the
mean is 0 it returns 0 (so an all-zero week scores 0, not 1); with fewer
than 7 distinct days it returns the 0.5 default.  In particular every
constant positive week scores exactly 1. -/
theorem c4_pattern_consistency_amended :
    (∀ data : List BehaviorEntry,
      (((dailyTotals data).map (·.2)).length < 7 →
        calculate_pattern_consistency data = 0.5)
      ∧ (7 ≤ ((dailyTotals data).map (·.2)).length →
          listMeanR ((dailyTotals data).map (·.2)) = 0 →
          calculate_pattern_consistency data = 0)
      ∧ (7 ≤ ((dailyTotals data).map (·.2)).length →
          listMeanR ((dailyTotals data).map (·.2)) ≠ 0 →
          calculate_pattern_consistency data
            = max 0 (1 - listStdR ((dailyTotals data).map (·.2))
                / listMeanR ((dailyTotals data).map (·.2)))))
    ∧ (∀ c : ℚ, 0 < c →
        calculate_pattern_consistency
          [⟨0, c⟩, ⟨1, c⟩, ⟨2, c⟩, ⟨3, c⟩, ⟨4, c⟩, ⟨5, c⟩, ⟨6, c⟩] = 1) := by
  constructor
  · intro data
    refine ⟨?_, ?_, ?_⟩
    · intro hlen
      simp only [calculate_pattern_consistency]
      rw [if_pos hlen]
    · intro hlen hmean
      simp only [calculate_pattern_consistency]
      rw [if_neg (by omega), if_pos hmean]
    · intro hlen hmean
      simp only [calculate_pattern_consistency]
      rw [if_neg (by omega), if_neg hmean]
  · intro c hc
    have hdt : dailyTotals
        [⟨0, c⟩, ⟨1, c⟩, ⟨2, c⟩, ⟨3, c⟩, ⟨4, c⟩, ⟨5, c⟩, ⟨6, c⟩]
        = [(0, c), (1, c), (2, c), (3, c), (4, c), (5, c), (6, c)] := by
      simp [dailyTotals, addDailyTotal]
    have hmean : listMeanR [c, c, c, c, c, c, c] = (c : ℝ) := by
      simp only [listMeanR, List.map_cons, List.map_nil, List.sum_cons,
        List.sum_nil, List.length_cons, List.length_nil]
      norm_num
      ring
    have hstd : listStdR [c, c, c, c, c, c, c] = 0 := by
      simp only [listStdR, hmean, List.map_cons, List.map_nil, List.sum_cons,
        List.sum_nil]
      norm_num [Real.sqrt_zero]
    have hne : (c : ℝ) ≠ 0 := by
      exact_mod_cast ne_of_gt hc
    simp only [calculate_pattern_consistency, hdt, List.map_cons, List.map_nil]
    rw [if_neg (by norm_num), if_neg (by rw [hmean]; exact hne), hmean, hstd]
    norm_num

/-- Closed instance of `c4_pattern_consistency_amended`: a single-day data
set scores the 0.5 default, and a constant week of 10-minute days scores
1. -/
theorem c4_pattern_consistency_amended_witness :
    calculate_pattern_consistency [⟨0, 5⟩] = 0.5
    ∧ calculate_pattern_consistency
        [⟨0, 10⟩, ⟨1, 10⟩, ⟨2, 10⟩, ⟨3, 10⟩, ⟨4, 10⟩, ⟨5, 10⟩, ⟨6, 10⟩] = 1 :=
  ⟨(c4_pattern_consistency_amended.1 [⟨0, 5⟩]).1
      (by simp [dailyTotals, addDailyTotal]),
   c4_pattern_consistency_amended.2 10 (by norm_num)⟩

/-- C6: with fewer than 5 day-rows the anomaly detector returns an empty
list; otherwise it behaves exactly as the claim describes (three
independent checks over the most recent 14 rows, each comparing the
last-3-day mean with the mean of all earlier rows in the window); and with
at most 14 rows the window is the entire feature list, so with 5 to 13
rows the earlier mean is taken over all available earlier days. -/
theorem c6_detect_behavioral_anomalies :
    ∀ features : List FeatureRow,
      detect_behavioral_anomalies features = anomaliesClaimSpec features
      ∧ (features.length < 5 → detect_behavioral_anomalies features = [])
      ∧ (features.length ≤ 14 → lastN 14 features = features) := by
  intro features
  refine ⟨?_, ?_, ?_⟩
  · by_cases h5 : features.length < 5
    · simp [detect_behavioral_anomalies, anomaliesClaimSpec, h5]
    · have hlen : (lastN 14 features).length = min 14 features.length := by
        simp only [lastN, List.length_drop]
        omega
      have hguard : 3 < ((lastN 14 features).map (·.total_duration)).length := by
        rw [List.length_map, hlen]
        omega
      simp only [detect_behavioral_anomalies, anomaliesClaimSpec, h5,
        if_false, if_pos hguard]
  · intro h
    simp [detect_behavioral_anomalies, h]
  · intro h
    have h0 : features.length - 14 = 0 := by omega
    simp [lastN, h0]

/-- Closed instance of `c6_detect_behavioral_anomalies`: two day-rows are
below the 5-day minimum, so no anomaly is reported, and they are their own
14-day window. -/
theorem c6_detect_behavioral_anomalies_witness :
    detect_behavioral_anomalies [⟨100, 1, 0⟩, ⟨200, 2, 0⟩] = []
    ∧ lastN 14 [(⟨100, 1, 0⟩ : FeatureRow), ⟨200, 2, 0⟩]
        = [⟨100, 1, 0⟩, ⟨200, 2, 0⟩] :=
  ⟨(c6_detect_behavioral_anomalies [⟨100, 1, 0⟩, ⟨200, 2, 0⟩]).2.1 (by simp),
   (c6_detect_behavioral_anomalies [⟨100, 1, 0⟩, ⟨200, 2, 0⟩]).2.2 (by simp)⟩

theorem mem_if_singleton {α : Type} {c : Prop} [Decidable c] {a x : α}
    (h : x ∈ (if c then [a] else ([] : List α))) : x = a := by
  split_ifs at h
  · simpa using h
  · simp at h

/-- C7: `generate_insights` performs four independent checks, any subset
of which may fire: with at least 2 days a least-squares slope above +30
yields a warning of severity high and one below -30 a positive insight of
severity low (and no trend insight fires otherwise, in particular never
with fewer than 2 days); a mean night usage above 60 yields a warning of
severity high; a summed binge count above 5 yields an alert of severity
critical; a mean social-media time above 180 yields a warning of severity
moderate. -/
theorem c7_generate_insights :
    ∀ l : List DailyRecord,
      ((⟨"warning", "high", .trendUp⟩ : Insight) ∈ generate_insights l
        ↔ 2 ≤ l.length ∧ lsSlope (l.map (·.total_duration)) > 30)
      ∧ ((⟨"positive", "low", .trendDown⟩ : Insight) ∈ generate_insights l
        ↔ 2 ≤ l.length ∧ lsSlope (l.map (·.total_duration)) < -30)
      ∧ ((⟨"warning", "high", .nightHigh⟩ : Insight) ∈ generate_insights l
        ↔ qmean (l.map (·.night_usage)) > 60)
      ∧ ((⟨"alert", "critical", .bingeAlert⟩ : Insight) ∈ generate_insights l
        ↔ (l.map (·.binge_sessions)).sum > 5)
      ∧ ((⟨"warning", "moderate", .socialHigh⟩ : Insight) ∈ generate_insights l
        ↔ qmean (l.map (·.social_media_time)) > 180)
      ∧ (l.length < 2 →
          ∀ i ∈ generate_insights l, i.tag ≠ .trendUp ∧ i.tag ≠ .trendDown) := by
  intro l
  refine ⟨?_, ?_, ?_, ?_, ?_, ?_⟩
  · simp only [generate_insights, List.mem_append]
    split_ifs with h1 h2 h3 <;> simp_all [Insight.mk.injEq]
  · simp only [generate_insights, List.mem_append]
    split_ifs with h1 h2 h3 <;> simp_all [Insight.mk.injEq] <;> linarith
  · simp only [generate_insights, List.mem_append]
    split_ifs <;> simp_all [Insight.mk.injEq]
  · simp only [generate_insights, List.mem_append]
    split_ifs <;> simp_all [Insight.mk.injEq]
  · simp only [generate_insights, List.mem_append]
    split_ifs <;> simp_all [Insight.mk.injEq]
  · intro hlen i hi
    unfold generate_insights at hi
    rw [if_neg (by omega)] at hi
    simp only [List.nil_append, List.mem_append] at hi
    have htag : i.tag = InsightTag.nightHigh ∨ i.tag = InsightTag.bingeAlert
        ∨ i.tag = InsightTag.socialHigh := by
      rcases hi with (hi | hi) | hi <;>
        · have he := mem_if_singleton hi
          subst he
          simp
    rcases htag with h | h | h <;> simp [h]

/-- Closed instance of `c7_generate_insights`: three days with totals 0,
100, 200 have least-squares slope 100 > 30, so the increasing-usage
warning of severity high fires. -/
theorem c7_generate_insights_witness :
    (⟨"warning", "high", .trendUp⟩ : Insight) ∈ generate_insights
      [⟨0, 0, 0, 0, 0, 0, 0, 0, 0, 0, 0, 0, 0⟩,
       ⟨1, 100, 0, 0, 0, 0, 0, 0, 0, 0, 0, 0, 0⟩,
       ⟨2, 200, 0, 0, 0, 0, 0, 0, 0, 0, 0, 0, 0⟩] :=
  (c7_generate_insights _).1.mpr
    ⟨by norm_num,
     by
      simp only [List.map_cons, List.map_nil]
      norm_num [lsSlope, List.range_succ]⟩

/-- C5 counterexample: the claim says a session at hour 6 counts as
morning and one at hour 12 as afternoon in both variants; but in
`process_logs_to_daily` the chain tests night (hour <= 6) before morning
and morning (hour <= 12) before afternoon, so an hour-6 session lands in
the night bucket (morning stays 0) and an hour-12 session lands in the
morning bucket (afternoon stays 0). -/
theorem c5_counterexample :
    ((process_logs_to_daily [⟨0, 6, 0, "X", 10⟩]).map
        (fun r => (r.morning_usage, r.night_usage)) = [(0, 10)])
    ∧ ((process_logs_to_daily [⟨0, 12, 0, "X", 10⟩]).map
        (fun r => (r.afternoon_usage, r.morning_usage)) = [(0, 10)]) := by
  have hx : strLower "X" = "x" := by decide
  constructor <;>
    · simp only [process_logs_to_daily, List.foldl, insertLogDay,
        updateDayData, updateAppUsage, initDayData, hx, socialAppsLower,
        entertainmentAppsLower, productivityAppsLower]
      norm_num
      simp

/-- C5 (amended): in `aggregate_daily_data` a session is counted as
morning iff its hour is in [6,12), afternoon iff in [12,18), evening iff
in [18,22) and night iff in [22,24) ∪ [0,6) — so hour 6 is morning and
hour 12 afternoon there; but in `process_logs_to_daily` the if/elif chain
yields night for hour in [22,24) ∪ [0,6], morning for (6,12], afternoon
for (12,18] and evening for (18,22) — so a session at hour 6 counts as
night and one at hour 12 as morning in that variant. -/
theorem c5_bucket_boundaries_amended :
    (∀ (log : UsageLog) (r : DailyRecord),
      aggregate_daily_data [log] log.day = some r →
      (r.morning_usage
        = if 6 ≤ log.hour ∧ log.hour < 12 then log.duration else 0)
      ∧ (r.afternoon_usage
        = if 12 ≤ log.hour ∧ log.hour < 18 then log.duration else 0)
      ∧ (r.evening_usage
        = if 18 ≤ log.hour ∧ log.hour < 22 then log.duration else 0)
      ∧ (r.night_usage
        = if 22 ≤ log.hour ∨ log.hour < 6 then log.duration else 0))
    ∧ (∀ (log : UsageLog) (r : DayData),
      ((updateDayData log r).night_usage
        = r.night_usage
          + if 22 ≤ log.hour ∨ log.hour ≤ 6 then log.duration else 0)
      ∧ ((updateDayData log r).morning_usage
        = r.morning_usage
          + if 6 < log.hour ∧ log.hour ≤ 12 then log.duration else 0)
      ∧ ((updateDayData log r).afternoon_usage
        = r.afternoon_usage
          + if 12 < log.hour ∧ log.hour ≤ 18 then log.duration else 0)
      ∧ ((updateDayData log r).evening_usage
        = r.evening_usage
          + if 18 < log.hour ∧ log.hour < 22 then log.duration else 0)) := by
  constructor
  · intro log r h
    have hf : ([log] : List UsageLog).filter
        (fun s => decide (s.day = log.day)) = [log] := by simp
    simp only [aggregate_daily_data, hf, List.isEmpty_cons, if_false,
      Bool.false_eq_true, Option.some.injEq] at h
    subst h
    refine ⟨?_, ?_, ?_, ?_⟩ <;> simp [sumDurIf]
  · intro log r
    refine ⟨?_, ?_, ?_, ?_⟩ <;>
      · simp only [updateDayData]
        split_ifs <;> simp <;>
          first
            | (rw [if_pos (by omega)])
            | (rw [if_neg (by omega)]; ring)
            | (exfalso; omega)

/-- Closed instance of `c5_bucket_boundaries_amended`: an hour-6 session
is bucketed by `aggregate_daily_data` via the [6,12) morning test, and by
`updateDayData` via the hour <= 6 night test. -/
theorem c5_bucket_boundaries_amended_witness :
    ((⟨0, 10, 1, 10, 0, 0, 0, 0, 10, 0, 0, 0, 10⟩ : DailyRecord).morning_usage
      = if 6 ≤ 6 ∧ 6 < 12 then (10 : ℚ) else 0)
    ∧ ((updateDayData ⟨0, 6, 0, "X", 10⟩ (initDayData 0)).night_usage
      = (initDayData 0).night_usage + if 22 ≤ 6 ∨ 6 ≤ 6 then (10 : ℚ) else 0) :=
  ⟨(c5_bucket_boundaries_amended.1 ⟨0, 6, 0, "X", 10⟩
      ⟨0, 10, 1, 10, 0, 0, 0, 0, 10, 0, 0, 0, 10⟩
      (by
        simp only [aggregate_daily_data, sumDurIf, calculate_max_continuous,
          max_continuous_loop, sortByTime, insertByTime, socialApps,
          entertainmentApps, productivityApps, List.filter, List.map,
          List.sum_cons, List.sum_nil, List.mem_cons, List.mem_singleton,
          List.not_mem_nil]
        simp [DailyRecord.mk.injEq, max_def]
        norm_num)).1,
   (c5_bucket_boundaries_amended.2 ⟨0, 6, 0, "X", 10⟩ (initDayData 0)).1⟩

theorem option_toList_length_le_one (o : Option α) : o.toList.length ≤ 1 := by
  cases o <;> simp

theorem addHourUsage_ne_nil (h : Nat) (v : ℚ) (acc : List (Nat × ℚ)) :
    addHourUsage h v acc ≠ [] := by
  cases acc with
  | nil => simp [addHourUsage]
  | cons a rest =>
      obtain ⟨a1, a2⟩ := a
      simp only [addHourUsage]
      split_ifs <;> simp

theorem hourUsage_aux_ne_nil (data : List BufferEntry) :
    ∀ acc : List (Nat × ℚ), acc ≠ [] →
      data.foldl (fun a e => addHourUsage e.hour e.duration a) acc ≠ [] := by
  induction data with
  | nil => intro acc h; simpa using h
  | cons e rest ih =>
      intro acc h
      exact ih _ (addHourUsage_ne_nil e.hour e.duration acc)

theorem hourUsage_ne_nil (data : List BufferEntry) (h : data ≠ []) :
    hourUsage data ≠ [] := by
  cases data with
  | nil => exact absurd rfl h
  | cons e rest =>
      exact hourUsage_aux_ne_nil rest _ (addHourUsage_ne_nil e.hour e.duration [])

theorem foldlMax_spec (rest : List (Nat × ℚ)) :
    ∀ p : Nat × ℚ,
      (rest.foldl (fun best q => if q.2 > best.2 then q else best) p = p
        ∨ rest.foldl (fun best q => if q.2 > best.2 then q else best) p ∈ rest)
      ∧ p.2 ≤ (rest.foldl (fun best q => if q.2 > best.2 then q else best) p).2
      ∧ ∀ q ∈ rest,
          q.2 ≤ (rest.foldl (fun best q => if q.2 > best.2 then q else best) p).2 := by
  induction rest with
  | nil => intro p; simp
  | cons a tl ih =>
      intro p
      simp only [List.foldl_cons]
      by_cases h : a.2 > p.2
      · rw [if_pos h]
        obtain ⟨h1, h2, h3⟩ := ih a
        refine ⟨?_, by linarith, ?_⟩
        · rcases h1 with h1 | h1
          · right; simp [h1]
          · right; exact List.mem_cons_of_mem a h1
        · intro q hq
          rcases List.mem_cons.mp hq with rfl | hq
          · exact h2
          · exact h3 q hq
      · rw [if_neg h]
        obtain ⟨h1, h2, h3⟩ := ih p
        refine ⟨?_, h2, ?_⟩
        · rcases h1 with h1 | h1
          · left; exact h1
          · right; exact List.mem_cons_of_mem a h1
        · intro q hq
          rcases List.mem_cons.mp hq with rfl | hq
          · push_neg at h; linarith
          · exact h3 q hq

theorem firstMax_spec (l : List (Nat × ℚ)) (hne : l ≠ []) :
    ∃ b, firstMax l = some b ∧ b ∈ l ∧ ∀ q ∈ l, q.2 ≤ b.2 := by
  cases l with
  | nil => exact absurd rfl hne
  | cons p rest =>
      obtain ⟨h1, h2, h3⟩ := foldlMax_spec rest p
      refine ⟨_, rfl, ?_, ?_⟩
      · rcases h1 with h1 | h1
        · rw [h1]; simp
        · exact List.mem_cons_of_mem p h1
      · intro q hq
        rcases List.mem_cons.mp hq with rfl | hq
        · exact h2
        · exact h3 q hq

/-- C8: `detect_patterns` returns an empty pattern list with confidence 0
on fewer than 10 buffer entries; otherwise it flags a binge pattern iff
the durations of the last 20 entries sum to more than 60 minutes (severity
high iff more than 120 minutes, else medium), a peak-hour pattern iff some
(equivalently, the busiest) hour-of-day duration sum exceeds 60 minutes,
and an app-switching pattern iff the last 10 entries hold at least 5
distinct app names; and the returned confidence always equals
min(0.3 * pattern_count + the sum of the per-pattern severity bonuses,
1). -/
theorem c8_detect_patterns :
    ∀ usage_data : List BufferEntry,
      (usage_data.length < 10 → detect_patterns usage_data = ([], 0))
      ∧ (10 ≤ usage_data.length →
          (detect_patterns usage_data).1 =
            (if ((lastN 20 usage_data).map (·.duration)).sum / 60 > 60 then
              [⟨"binge_usage",
                some (if ((lastN 20 usage_data).map (·.duration)).sum / 60 > 120
                  then "high" else "medium")⟩]
            else [])
            ++ (if ∃ q ∈ hourUsage usage_data, q.2 / 60 > 60 then
                  [(⟨"peak_usage_time", none⟩ : RTPattern)] else [])
            ++ (if 5 ≤ ((lastN 10 usage_data).map (·.appName)).dedup.length then
                  [(⟨"app_switching", none⟩ : RTPattern)] else []))
      ∧ (detect_patterns usage_data).2 =
          min ((3 / 10) * ((detect_patterns usage_data).1.length : ℚ)
            + ((detect_patterns usage_data).1.map severityBonus).sum) 1 := by
  intro usage_data
  by_cases h10 : usage_data.length < 10
  · refine ⟨fun _ => by simp [detect_patterns, h10], fun h => absurd h (by omega), ?_⟩
    simp [detect_patterns, h10]
  · have h10' : 10 ≤ usage_data.length := by omega
    have hlast20 : ¬((lastN 20 usage_data).length < 5) := by
      simp only [lastN, List.length_drop]
      omega
    have hlast10 : ¬((lastN 10 usage_data).length < 5) := by
      simp only [lastN, List.length_drop]
      omega
    have hseg1 : (detect_binge_pattern usage_data).toList =
        (if ((lastN 20 usage_data).map (·.duration)).sum / 60 > 60 then
          [(⟨"binge_usage",
            some (if ((lastN 20 usage_data).map (·.duration)).sum / 60 > 120
              then "high" else "medium")⟩ : RTPattern)]
        else []) := by
      have hc1 : (((lastN 20 usage_data).map (·.duration)).sum / 60 > 60)
          ↔ (((lastN 20 usage_data).map (·.duration)).sum > 3600) := by
        constructor <;> intro <;> linarith
      have hc2 : (((lastN 20 usage_data).map (·.duration)).sum / 60 > 120)
          ↔ (((lastN 20 usage_data).map (·.duration)).sum > 7200) := by
        constructor <;> intro <;> linarith
      simp only [detect_binge_pattern, if_neg hlast20, hc1, hc2]
      split_ifs <;> simp
    have hseg3 : (detect_app_switching usage_data).toList =
        (if 5 ≤ ((lastN 10 usage_data).map (·.appName)).dedup.length then
          [(⟨"app_switching", none⟩ : RTPattern)] else []) := by
      simp only [detect_app_switching, if_neg hlast10]
      split_ifs <;> simp
    have hne : hourUsage usage_data ≠ [] := by
      apply hourUsage_ne_nil
      intro hnil
      rw [hnil] at h10'
      simp at h10'
    obtain ⟨b, hb_eq, hb_mem, hb_max⟩ := firstMax_spec (hourUsage usage_data) hne
    have hseg2 : (detect_time_patterns usage_data).toList =
        (if ∃ q ∈ hourUsage usage_data, q.2 / 60 > 60 then
          [(⟨"peak_usage_time", none⟩ : RTPattern)] else []) := by
      have hq : (∃ q ∈ hourUsage usage_data, q.2 / 60 > 60) ↔ b.2 / 60 > 60 := by
        constructor
        · rintro ⟨q, hqmem, hqgt⟩
          have := hb_max q hqmem
          have : q.2 / 60 ≤ b.2 / 60 := by
            apply div_le_div_of_nonneg_right ?_ ?_ <;> first | linarith | norm_num
          linarith
        · intro hb
          exact ⟨b, hb_mem, hb⟩
      simp only [detect_time_patterns, hb_eq, hq]
      split_ifs <;> simp
    refine ⟨fun h => absurd h (by omega), fun _ => ?_, ?_⟩
    · simp only [detect_patterns, if_neg h10]
      rw [hseg1, hseg2, hseg3]
    · simp only [detect_patterns, if_neg h10]
      set ps := (detect_binge_pattern usage_data).toList
        ++ (detect_time_patterns usage_data).toList
        ++ (detect_app_switching usage_data).toList with hps
      have hlen3 : ps.length ≤ 3 := by
        rw [hps]
        simp only [List.length_append]
        have l1 := option_toList_length_le_one (detect_binge_pattern usage_data)
        have l2 := option_toList_length_le_one (detect_time_patterns usage_data)
        have l3 := option_toList_length_le_one (detect_app_switching usage_data)
        omega
      simp only [calculate_pattern_confidence]
      by_cases hemp : ps.isEmpty
      · have : ps = [] := List.isEmpty_iff.mp hemp
        simp [hemp, this]
      · rw [if_neg hemp]
        have hmin : min ((ps.length : ℚ) * (3 / 10)) 1
            = (ps.length : ℚ) * (3 / 10) := by
          apply min_eq_left
          have : (ps.length : ℚ) ≤ 3 := by exact_mod_cast hlen3
          linarith
        rw [hmin]
        ring_nf

/-- Closed instance of `c8_detect_patterns`: a single-entry buffer is
below the 10-entry minimum, so no pattern is reported and the confidence
is 0. -/
theorem c8_detect_patterns_witness :
    detect_patterns [⟨0, "X", 100⟩] = ([], 0) :=
  (c8_detect_patterns [⟨0, "X", 100⟩]).1 (by simp)
